import Mathlib

/-!
Verification of the REPACSS power-profiling energy core.

This file gives a shallow embedding, over exact rational arithmetic, of the
energy-integration core of the repository:

* `convert_power_series_to_watts` (src/utils/conversions.py) and the private
  copy `_convert_power_series_to_watts` (src/core/power_utils.py);
* `compute_energy_kwh_for_hostname`, the edge-hold variant
  (src/core/power_utils.py, lines 171-258);
* `compute_energy_kwh_for_hostname`, the boundary-row-insertion variant
  defined at module level in src/analysis/energy.py (lines 23-105);
* the timezone/boundary disambiguation logic and row driver of
  src/scripts/calculate_energy_table.py (`calculate_energy_for_row`);
* the unit-extraction expressions of src/scripts/run_zen4_power_queries.py
  (line 162) and of `power_analysis` (src/core/power_utils.py, line 372);
* the component/category aggregation ("Other" residual) of
  src/scripts/run_h100_power_queries.py and run_zen4_power_queries.py.

Modelling conventions:
* timestamps are rationals, measured in seconds since the epoch; a row whose
  timestamp failed `pd.to_datetime(..., errors="coerce")` carries `none`;
* numeric values are rationals (the data contract declares `value` numeric);
* a Python `None` unit is `Option.none`; a present unit string is `some u`;
* a raised `ValueError` is `Option.none` at the function result; every normal
  return is `some`;
* a pandas DataFrame is a column-name list plus a row list; only the columns
  the embedded code reads are materialised in `Row`.
-/

/-- One result-set row: parsed timestamp (none = unparseable), hostname,
numeric value, and the optional `units` column entry (none = null). -/
structure Row where
  timestamp : Option ℚ
  hostname : String
  value : ℚ
  units : Option String := none
  deriving DecidableEq

instance : Inhabited Row := ⟨⟨none, "", 0, none⟩⟩

/-- A query-result DataFrame: its column names and its rows. -/
structure DataFrame where
  cols : List String
  rows : List Row
  deriving DecidableEq

/-- `required_cols.issubset(df.columns)` for `{"timestamp","hostname","value"}`. -/
def hasRequiredCols (df : DataFrame) : Bool :=
  df.cols.contains "timestamp" && df.cols.contains "hostname" && df.cols.contains "value"

/-- Python `str.lower()` on the ASCII unit labels this code receives. -/
def strLower (s : String) : String := String.mk (s.data.map Char.toLower)

/-- Whether the second character list is a leading segment of the first. -/
def charsStartWith : List Char → List Char → Bool
  | _, [] => true
  | [], _ :: _ => false
  | c :: cs, d :: ds => c == d && charsStartWith cs ds

/-- Python `str.startswith`. -/
def strStartsWith (s pre : String) : Bool := charsStartWith s.data pre.data

/-- Python `str.endswith`. -/
def strEndsWith (s suf : String) : Bool := charsStartWith s.data.reverse suf.data.reverse

/-- Python `unit.lower() if unit else 'w'` (both `None` and `""` are falsy). -/
def unitKey (unit : Option String) : String :=
  match unit with
  | none => "w"
  | some u => if u = "" then "w" else strLower u

/-- Scalar body of `convert_power_series_to_watts` (src/utils/conversions.py,
lines 11-33): `mw` divides by 1000, `kw` multiplies by 1000, `w` and anything
unrecognised pass through.  The function body has no raise path: it is total. -/
def convert_power_to_watts (value : ℚ) (unit : Option String) : ℚ :=
  let u := unitKey unit
  if u = "mw" then value / 1000
  else if u = "kw" then value * 1000
  else if u = "w" then value
  else value

/-- `convert_power_series_to_watts` applied to a whole series (the pandas
vectorised form; identical arithmetic per element). -/
def convert_power_series_to_watts (series : List ℚ) (unit : Option String) : List ℚ :=
  series.map (fun v => convert_power_to_watts v unit)

/-- `df[df["hostname"] == hostname]`. -/
def filterHostRows (rows : List Row) (hostname : String) : List Row :=
  rows.filter (fun r => r.hostname == hostname)

/-- `pd.to_datetime(..., errors="coerce")` followed by `dropna`: keep the
(timestamp, value) pairs of the rows whose timestamp parsed. -/
def parsedPoints (rows : List Row) : List (ℚ × ℚ) :=
  rows.filterMap (fun r => r.timestamp.map (fun t => (t, r.value)))

/-- Comparison used by `sort_values("timestamp")`: ascending timestamps. -/
def timeLe (a b : ℚ × ℚ) : Prop := a.1 ≤ b.1

instance : DecidableRel timeLe := fun a b => inferInstanceAs (Decidable (a.1 ≤ b.1))

instance : IsTotal (ℚ × ℚ) timeLe := ⟨fun a b => le_total a.1 b.1⟩

instance : IsTrans (ℚ × ℚ) timeLe := ⟨fun _ _ _ h1 h2 => le_trans h1 h2⟩

instance : IsRefl (ℚ × ℚ) timeLe := ⟨fun a => le_refl a.1⟩

/-- `sort_values("timestamp")`: sort the point list ascending by timestamp. -/
def sortByTime (l : List (ℚ × ℚ)) : List (ℚ × ℚ) := List.insertionSort timeLe l

/-- The filtered, parsed, timestamp-sorted (timestamp, raw value) series the
integrators work on for one hostname. -/
def hostSeries (df : DataFrame) (hostname : String) : List (ℚ × ℚ) :=
  sortByTime (parsedPoints (filterHostRows df.rows hostname))

/-- Trapezoidal Joule sum of src/core/power_utils.py lines 235-240: pandas
converts each timestamp to whole seconds by flooring
(`.astype("int64") // 10**9`) before differencing. -/
def trapezoidFloorJ : List (ℚ × ℚ) → ℚ
  | a :: b :: rest =>
      (b.2 + a.2) / 2 * ((Int.floor b.1 - Int.floor a.1 : ℤ) : ℚ) + trapezoidFloorJ (b :: rest)
  | _ => 0

/-- Trapezoidal Joule sum of src/analysis/energy.py lines 98-102: exact
`total_seconds()` differences. -/
def trapezoidExactJ : List (ℚ × ℚ) → ℚ
  | a :: b :: rest =>
      (b.2 + a.2) / 2 * (b.1 - a.1) + trapezoidExactJ (b :: rest)
  | _ => 0

namespace PowerUtils

/-- `compute_energy_kwh_for_hostname` from src/core/power_utils.py
(lines 171-258), the edge-hold variant.  `none` models the raised
`ValueError`; every soft exit is `some`.  Control flow is kept sequential:
the left-edge estimate is accumulated first, the `len >= 2` trapezoid or the
single-point window formula second (the single-point assignment overwrites
the accumulator, and its no-window arm returns 0.0 early), and the right-edge
estimate is added to whatever survives before the final clamp. -/
def compute_energy_kwh_for_hostname (df : DataFrame) (unit : Option String)
    (hostname : String) (query_start query_end : Option ℚ) : Option ℚ :=
  if hasRequiredCols df = false then none
  else
    let host_rows := filterHostRows df.rows hostname
    if host_rows.isEmpty then some 0
    else
      let pts := hostSeries df hostname
      if pts.isEmpty then some 0
      else
        let pw := pts.map (fun p => (p.1, convert_power_to_watts p.2 unit))
        let data_start := (pw.headD default).1
        let data_end := (pw.getLastD default).1
        let first_power := (pw.headD default).2
        let last_power := (pw.getLastD default).2
        let acc1 : ℚ :=
          match query_start with
          | some qs => if data_start > qs then first_power * (data_start - qs) else 0
          | none => 0
        let acc2 : Option ℚ :=
          if 2 ≤ pw.length then some (acc1 + trapezoidFloorJ pw)
          else
            match query_start, query_end with
            | some qs, some qe => some (first_power * (qe - qs))
            | _, _ => none
        match acc2 with
        | none => some 0
        | some a =>
          let acc3 := a +
            (match query_end with
             | some qe => if data_end < qe then last_power * (qe - data_end) else 0
             | none => 0)
          some (max (acc3 / 3600000) 0)

end PowerUtils

/-- src/analysis/energy.py lines 74-84: when a `query_start` precedes the
data, concatenate a boundary row at `query_start` carrying the first power
and re-sort by timestamp. -/
def insertStartBoundary (pw : List (ℚ × ℚ)) (query_start : Option ℚ) : List (ℚ × ℚ) :=
  match query_start with
  | some qs =>
      if qs < (pw.headD default).1 then sortByTime ((qs, (pw.headD default).2) :: pw) else pw
  | none => pw

/-- src/analysis/energy.py lines 86-95: when the data ends before
`query_end`, append a boundary row at `query_end` carrying the last power
and re-sort by timestamp. -/
def insertEndBoundary (pw1 : List (ℚ × ℚ)) (query_end : Option ℚ) : List (ℚ × ℚ) :=
  match query_end with
  | some qe =>
      if (pw1.getLastD default).1 < qe then
        sortByTime (pw1 ++ [(qe, (pw1.getLastD default).2)])
      else pw1
  | none => pw1

namespace AnalysisEnergy

/-- `compute_energy_kwh_for_hostname` from src/analysis/energy.py
(lines 23-105), the boundary-row-insertion variant: a row holding the first
power is prepended at `query_start` when the data starts late, a row holding
the last power is appended at `query_end` when the data ends early, the
exact-seconds trapezoid is taken over the result, and the quotient is
returned without any clamp. -/
def compute_energy_kwh_for_hostname (df : DataFrame) (unit : Option String)
    (hostname : String) (query_start query_end : Option ℚ) : Option ℚ :=
  if hasRequiredCols df = false then none
  else
    let host_rows := filterHostRows df.rows hostname
    if host_rows.isEmpty then some 0
    else
      let pts := hostSeries df hostname
      if pts.isEmpty then some 0
      else
        let pw := pts.map (fun p => (p.1, convert_power_to_watts p.2 unit))
        let pw1 := insertStartBoundary pw query_start
        let pw2 := insertEndBoundary pw1 query_end
        some (trapezoidExactJ pw2 / 3600000)

end AnalysisEnergy

/-- The unit-normalised Watts series `(timestamp, power_w)` for one hostname,
as both integrators build it. -/
def wattSeries (df : DataFrame) (unit : Option String) (hostname : String) : List (ℚ × ℚ) :=
  (hostSeries df hostname).map (fun p => (p.1, convert_power_to_watts p.2 unit))

/-- The left-edge Joule estimate: `first_power * (data_start - query_start)`,
counted exactly when a query start is supplied and the data starts after it. -/
def edgeLeftJ (pw : List (ℚ × ℚ)) (query_start : Option ℚ) : ℚ :=
  match query_start with
  | some qs =>
      if (pw.headD default).1 > qs then (pw.headD default).2 * ((pw.headD default).1 - qs) else 0
  | none => 0

/-- The right-edge Joule estimate: `last_power * (query_end - data_end)`,
counted exactly when a query end is supplied and the data ends before it. -/
def edgeRightJ (pw : List (ℚ × ℚ)) (query_end : Option ℚ) : ℚ :=
  match query_end with
  | some qe =>
      if (pw.getLastD default).1 < qe then (pw.getLastD default).2 * (qe - (pw.getLastD default).1) else 0
  | none => 0

/-- Modelled from the claim text of C1 (and spec §4.2 step 4), which reads
`dt = seconds between timestamps` with no flooring: the trapezoidal core uses
exact timestamp differences.  Compare with the source, whose core floors each
timestamp to whole seconds (`trapezoidFloorJ`). -/
def specEnergyExactDt (df : DataFrame) (unit : Option String) (hostname : String)
    (query_start query_end : Option ℚ) : ℚ :=
  max (edgeLeftJ (wattSeries df unit hostname) query_start +
    trapezoidExactJ (wattSeries df unit hostname) +
    edgeRightJ (wattSeries df unit hostname) query_end) 0 / 3600000

/-- Blank out a row's `units` entry (the integrators never read it). -/
def stripRow (r : Row) : Row := ⟨r.timestamp, r.hostname, r.value, none⟩

/-- Blank out every row's `units` entry. -/
def stripUnits (df : DataFrame) : DataFrame := ⟨df.cols, df.rows.map stripRow⟩

/-- Unit extraction of src/scripts/run_zen4_power_queries.py line 162 and
src/scripts/calculate_energy_table.py line 54:
`df['units'].iloc[0] if 'units' in df.columns and df['units'].notna().any()
else 'W'` — row 0's entry (which may itself be null), not the first
non-null entry. -/
def extractUnitFirst (df : DataFrame) : Option String :=
  if df.cols.contains "units" && df.rows.any (fun r => r.units.isSome) then
    (df.rows.headD default).units
  else some "W"

/-- Unit extraction of `power_analysis` (src/core/power_utils.py line 372):
`metric_data['units'].iloc[0] if 'units' in metric_data.columns else 'W'`. -/
def extractUnitPowerAnalysis (df : DataFrame) : Option String :=
  if df.cols.contains "units" then (df.rows.headD default).units else some "W"

/-- Modelled from the claim text of C7, which reads "the first non-null row
of the units column".  Compare with the source's `iloc[0]` extraction. -/
def firstNonNullUnit (df : DataFrame) : Option String :=
  df.rows.findSome? (fun r => r.units)

/-- The per-metric energy call of run_zen4_power_queries.py lines 162-167
(which imports the analysis/energy.py integrator): extract the unit once from
the batch, then integrate the whole batch with it. -/
def zen4MetricEnergy (df : DataFrame) (hostname : String) (qs qe : Option ℚ) : Option ℚ :=
  AnalysisEnergy.compute_energy_kwh_for_hostname df (extractUnitFirst df) hostname qs qe

/-- The per-metric energy call of `power_analysis` (src/core/power_utils.py
lines 370-375), built on the power_utils integrator. -/
def powerAnalysisMetricEnergy (df : DataFrame) (hostname : String) (qs qe : Option ℚ) : Option ℚ :=
  PowerUtils.compute_energy_kwh_for_hostname df (extractUnitPowerAnalysis df) hostname qs qe

/-- The timezone-mismatch heuristic of src/scripts/calculate_energy_table.py
lines 67-90, run when both query bounds are present and the frame is
non-empty.  It only toggles a boolean; there is no raise path. -/
def disambiguateUseBoundaries (data_start data_end query_start query_end : ℚ) : Bool :=
  let time_gap_before := if data_start > query_start then data_start - query_start else 0
  let time_gap_after := if query_end > data_end then query_end - data_end else 0
  if time_gap_before > 7200 then false
  else if time_gap_after > 7200 then false
  else if |time_gap_before| > 3600 ∨ |time_gap_after| > 3600 then
    let query_duration := query_end - query_start
    let data_duration := data_end - data_start
    if 0 < query_duration ∧ query_duration * 2 < data_duration then false else true
  else true

/-- Minimum of a rational list with a fallback (`df['timestamp'].min()`). -/
def listMinD (l : List ℚ) (d : ℚ) : ℚ :=
  match l with
  | [] => d
  | x :: xs => xs.foldl min x

/-- Maximum of a rational list with a fallback (`df['timestamp'].max()`). -/
def listMaxD (l : List ℚ) (d : ℚ) : ℚ :=
  match l with
  | [] => d
  | x :: xs => xs.foldl max x

/-- `calculate_energy_for_row` from src/scripts/calculate_energy_table.py
(lines 23-115), reduced to its decision layer: an empty frame returns 0.0
before the integrator is ever invoked; an unparseable timestamp raises inside
`pd.to_datetime` and the catch-all returns 0.0; otherwise the heuristic runs
only when both bounds are present, and the analysis/energy.py integrator is
called with either the query window or `(None, None)`.  The second component
records the window actually passed to the integrator (`none` = the
integrator was never invoked or raised into the catch-all). -/
def calculate_energy_for_row (df : DataFrame) (hostname : String)
    (start_time end_time : Option ℚ) : ℚ × Option (Option ℚ × Option ℚ) :=
  if df.rows.isEmpty then (0, none)
  else if df.rows.any (fun r => r.timestamp.isNone) then (0, none)
  else
    let unit := extractUnitFirst df
    let ts := df.rows.filterMap (fun r => r.timestamp)
    let data_start := listMinD ts 0
    let data_end := listMaxD ts 0
    let use_boundaries :=
      match start_time, end_time with
      | some s, some e =>
          if 0 < df.rows.length then disambiguateUseBoundaries data_start data_end s e else true
      | _, _ => true
    let args := if use_boundaries then (start_time, end_time) else (none, none)
    match AnalysisEnergy.compute_energy_kwh_for_hostname df unit hostname args.1 args.2 with
    | some v => (v, some args)
    | none => (0, none)

/-- `sum(d.values())` over an association list of metric energies. -/
def sumValues (l : List (String × ℚ)) : ℚ := l.foldl (fun a kv => a + kv.2) 0

/-- `d.get(k, 0.0)` over an association list. -/
def lookupD (l : List (String × ℚ)) (k : String) : ℚ :=
  match l.find? (fun kv => kv.1 == k) with
  | some kv => kv.2
  | none => 0

/-- The category-total preference loop of both query scripts: the first
metric whose lowercased name starts with the given (lowercase) total-metric
name wins; otherwise every energy in the category is summed. -/
def preferTotalOrSum (entries : List (String × ℚ)) (pre : String) : ℚ :=
  match entries.find? (fun kv => strStartsWith (strLower kv.1) pre) with
  | some kv => kv.2
  | none => sumValues entries

/-- GPU category total of run_h100_power_queries.py lines 465-483: sum the
per-FQDD energies; if that sum is exactly zero fall back to a `*_TOTAL`
metric, and failing that to the sum of all GPU energies. -/
def gpuTotalEnergy (gpu : List (String × ℚ)) : ℚ :=
  let perFqdd := gpu.filter (fun kv => strStartsWith kv.1 "PowerConsumption_FQDD_")
  let s := sumValues perFqdd
  if s = 0 then
    match gpu.find? (fun kv => strEndsWith kv.1 "_TOTAL") with
    | some kv => kv.2
    | none => sumValues gpu
  else s

/-- The per-category energy maps `energy_analysis` built by
run_h100_power_queries.py (every category key is created by the collection
loop, possibly holding an empty map). -/
structure EnergyAnalysisH100 where
  cpu : List (String × ℚ)
  memory : List (String × ℚ)
  gpu : List (String × ℚ)
  fan : List (String × ℚ)
  storage : List (String × ℚ)
  system : List (String × ℚ)
  deriving DecidableEq

/-- `system_output_energy = energy_analysis['SYSTEM'].get('SystemOutputPower', 0)`. -/
def h100SystemOutput (ea : EnergyAnalysisH100) : ℚ := lookupD ea.system "SystemOutputPower"

/-- `comp_sum_no_other = cpu_total_val + gpu_total_val + mem_val + fan_val +
storage_val` of run_h100_power_queries.py lines 556-561. -/
def h100ComponentSum (ea : EnergyAnalysisH100) : ℚ :=
  preferTotalOrSum ea.cpu "totalcpupower" + gpuTotalEnergy ea.gpu +
    preferTotalOrSum ea.memory "totalmemorypower" +
    preferTotalOrSum ea.fan "totalfanpower" +
    preferTotalOrSum ea.storage "totalstoragepower"

/-- `other_val = max(system_output_energy - comp_sum_no_other, 0.0)`
(run_h100_power_queries.py line 562). -/
def h100OtherEnergy (ea : EnergyAnalysisH100) : ℚ :=
  max (h100SystemOutput ea - h100ComponentSum ea) 0

/-- The per-category energy maps of run_zen4_power_queries.py (no GPU). -/
structure EnergyAnalysisZen4 where
  cpu : List (String × ℚ)
  memory : List (String × ℚ)
  fan : List (String × ℚ)
  storage : List (String × ℚ)
  system : List (String × ℚ)
  deriving DecidableEq

/-- `other_val = max(system_output - comp_sum, 0.0)` of
run_zen4_power_queries.py lines 201-202, with `pick_total_or_sum` per
category and `energy_analysis.get('SYSTEM', {}).get('SystemOutputPower', 0.0)`. -/
def zen4OtherEnergy (ea : EnergyAnalysisZen4) : ℚ :=
  let cpu_total := preferTotalOrSum ea.cpu "totalcpupower"
  let mem_total := preferTotalOrSum ea.memory "totalmemorypower"
  let fan_total := preferTotalOrSum ea.fan "totalfanpower"
  let storage_total := preferTotalOrSum ea.storage "totalstoragepower"
  let system_output := lookupD ea.system "SystemOutputPower"
  max (system_output - (cpu_total + mem_total + fan_total + storage_total)) 0

/-! ### Concrete inputs used by the example, counterexample and witness
theorems -/

/-- Two samples for host `h`: (10:00:00, 100) and (10:02:00, 200). -/
def dfTwoPoint : DataFrame :=
  ⟨["timestamp", "hostname", "value"],
   [⟨some 36000, "h", 100, none⟩, ⟨some 36120, "h", 200, none⟩]⟩

/-- Two samples half a second apart (timestamps 0 s and 0.5 s), both 100 W. -/
def dfSubsecond : DataFrame :=
  ⟨["timestamp", "hostname", "value"],
   [⟨some 0, "h", 100, none⟩, ⟨some (1/2), "h", 100, none⟩]⟩

/-- Two samples one minute apart, both -100 W. -/
def dfNegPower : DataFrame :=
  ⟨["timestamp", "hostname", "value"],
   [⟨some 0, "h", -100, none⟩, ⟨some 60, "h", -100, none⟩]⟩

/-- A single sample at 10:05:00 of 100 W. -/
def dfSinglePoint : DataFrame :=
  ⟨["timestamp", "hostname", "value"],
   [⟨some 36300, "h", 100, none⟩]⟩

/-- A units column whose row 0 is null while row 1 reads `kW`. -/
def dfUnitsNullFirst : DataFrame :=
  ⟨["timestamp", "hostname", "value", "units"],
   [⟨some 0, "h", 1, none⟩, ⟨some 60, "h", 1, some "kW"⟩]⟩

/-- The same frame with row 1's unit retagged (unit-free data unchanged). -/
def dfUnitsNullFirstRetag : DataFrame :=
  ⟨["timestamp", "hostname", "value", "units"],
   [⟨some 0, "h", 1, none⟩, ⟨some 60, "h", 1, some "mW"⟩]⟩

/-- A well-formed but empty result set. -/
def dfEmpty : DataFrame := ⟨["timestamp", "hostname", "value", "units"], []⟩

/-- Two good rows for host `h` (no bad timestamps). -/
def dfGoodPair : DataFrame :=
  ⟨["timestamp", "hostname", "value"],
   [⟨some 0, "h", 100, none⟩, ⟨some 60, "h", 100, none⟩]⟩

/-- `dfGoodPair` with one unparseable-timestamp row prepended for host `h`. -/
def dfWithBadTimestamp : DataFrame :=
  ⟨["timestamp", "hostname", "value"],
   [⟨none, "h", 7, none⟩, ⟨some 0, "h", 100, none⟩, ⟨some 60, "h", 100, none⟩]⟩

/-- The component example of the spec: SystemOutputPower = 10, CPU = 3,
MEMORY = 1, FAN = 0.5, STORAGE = 0.5, GPU = 4. -/
def eaExample : EnergyAnalysisH100 :=
  ⟨[("TotalCPUPower", 3)], [("TotalMemoryPower", 1)], [("PowerConsumption_FQDD_0", 4)],
   [("TotalFanPower", 1/2)], [("TotalStoragePower", 1/2)], [("SystemOutputPower", 10)]⟩

/-- The same component breakdown against a smaller system total (5 kWh). -/
def eaOversum : EnergyAnalysisH100 :=
  ⟨[("TotalCPUPower", 3)], [("TotalMemoryPower", 1)], [("PowerConsumption_FQDD_0", 4)],
   [("TotalFanPower", 1/2)], [("TotalStoragePower", 1/2)], [("SystemOutputPower", 5)]⟩

/-! ### Toolkit lemmas about the shared series pipeline -/

theorem hostSeries_sorted (df : DataFrame) (h : String) :
    (hostSeries df h).Sorted timeLe :=
  List.sorted_insertionSort timeLe _

theorem sortByTime_eq_self {l : List (ℚ × ℚ)} (hl : l.Sorted timeLe) :
    sortByTime l = l :=
  hl.insertionSort_eq

theorem sortByTime_length (l : List (ℚ × ℚ)) : (sortByTime l).length = l.length :=
  List.length_insertionSort timeLe l

theorem getLastD_default_irrel {l : List (ℚ × ℚ)} (h : l ≠ []) (d d' : ℚ × ℚ) :
    l.getLastD d = l.getLastD d' := by
  obtain ⟨x, hx⟩ := Option.isSome_iff_exists.mp (List.getLast?_isSome.mpr h)
  simp [List.getLastD_eq_getLast?, hx]

theorem getLastD_cons_ne_nil {l : List (ℚ × ℚ)} (hl : l ≠ []) (a d : ℚ × ℚ) :
    (a :: l).getLastD d = l.getLastD d := by
  cases l with
  | nil => exact absurd rfl hl
  | cons b t => simp [List.getLastD_eq_getLast?, List.getLast?_cons_cons]

theorem sorted_headD_le {l : List (ℚ × ℚ)} (hs : l.Sorted timeLe) (d : ℚ × ℚ) :
    ∀ p ∈ l, (l.headD d).1 ≤ p.1 := by
  cases l with
  | nil => intro p hp; simp at hp
  | cons a t =>
    intro p hp
    rcases List.mem_cons.mp hp with rfl | hp'
    · simp
    · simpa using (List.sorted_cons.mp hs).1 p hp'

theorem sorted_le_getLastD : ∀ {l : List (ℚ × ℚ)}, l.Sorted timeLe → ∀ (d : ℚ × ℚ),
    ∀ p ∈ l, p.1 ≤ (l.getLastD d).1
  | [], _, _, p, hp => by simp at hp
  | [a], _, d, p, hp => by
      rcases List.mem_singleton.mp hp with rfl
      simp
  | a :: b :: t, hs, d, p, hp => by
      have ih := sorted_le_getLastD (List.sorted_cons.mp hs).2 d
      rw [getLastD_cons_ne_nil (by simp) a d]
      rcases List.mem_cons.mp hp with rfl | hp'
      · have hab : p.1 ≤ b.1 := (List.sorted_cons.mp hs).1 b (by simp)
        exact le_trans hab (ih b (by simp))
      · exact ih p hp'

theorem trapezoidFloorJ_eq_exact : ∀ {l : List (ℚ × ℚ)},
    (∀ p ∈ l, ((Int.floor p.1 : ℤ) : ℚ) = p.1) → trapezoidFloorJ l = trapezoidExactJ l
  | [], _ => rfl
  | [_], _ => rfl
  | a :: b :: rest, h => by
    have ha := h a (by simp)
    have hb := h b (by simp)
    have ih := trapezoidFloorJ_eq_exact (l := b :: rest) (fun p hp => h p (by simp [hp]))
    simp only [trapezoidFloorJ, trapezoidExactJ, ih]
    push_cast
    rw [ha, hb]

theorem trapezoidExactJ_nonneg : ∀ {l : List (ℚ × ℚ)}, l.Sorted timeLe →
    (∀ p ∈ l, 0 ≤ p.2) → 0 ≤ trapezoidExactJ l
  | [], _, _ => le_refl 0
  | [_], _, _ => le_refl 0
  | a :: b :: rest, hs, hnn => by
    have hab : a.1 ≤ b.1 := (List.sorted_cons.mp hs).1 b (by simp)
    have ih := trapezoidExactJ_nonneg (List.sorted_cons.mp hs).2
      (fun p hp => hnn p (by simp [hp]))
    have h2 : 0 ≤ b.2 + a.2 := by
      have := hnn a (by simp)
      have := hnn b (by simp)
      linarith
    have h1 : 0 ≤ (b.2 + a.2) / 2 * (b.1 - a.1) := by
      apply mul_nonneg (by linarith)
      linarith
    simpa [trapezoidExactJ] using add_nonneg h1 ih

theorem trapezoidExactJ_concat : ∀ (l : List (ℚ × ℚ)) (x d : ℚ × ℚ), l ≠ [] →
    trapezoidExactJ (l ++ [x]) =
      trapezoidExactJ l + (x.2 + (l.getLastD d).2) / 2 * (x.1 - (l.getLastD d).1)
  | [], _, _, h => absurd rfl h
  | [a], x, d, _ => by simp [trapezoidExactJ]
  | a :: b :: rest, x, d, _ => by
    have ih := trapezoidExactJ_concat (b :: rest) x d (by simp)
    have hlast : ((a :: b :: rest).getLastD d) = ((b :: rest).getLastD d) := by
      simp [List.getLastD_eq_getLast?]
    calc trapezoidExactJ (a :: b :: rest ++ [x])
        = (b.2 + a.2) / 2 * (b.1 - a.1) + trapezoidExactJ (b :: rest ++ [x]) := rfl
      _ = (b.2 + a.2) / 2 * (b.1 - a.1) + (trapezoidExactJ (b :: rest) +
            (x.2 + ((b :: rest).getLastD d).2) / 2 * (x.1 - ((b :: rest).getLastD d).1)) := by
          rw [ih]
      _ = trapezoidExactJ (a :: b :: rest) +
            (x.2 + ((a :: b :: rest).getLastD d).2) / 2 *
              (x.1 - ((a :: b :: rest).getLastD d).1) := by
          rw [hlast]
          show _ = (b.2 + a.2) / 2 * (b.1 - a.1) + trapezoidExactJ (b :: rest) + _
          ring

theorem sortByTime_cons_of_le (x : ℚ × ℚ) {l : List (ℚ × ℚ)} (hl : l.Sorted timeLe)
    (hx : x.1 ≤ (l.headD x).1) : sortByTime (x :: l) = x :: l := by
  unfold sortByTime List.insertionSort
  rw [hl.insertionSort_eq]
  cases l with
  | nil => rfl
  | cons y ys =>
    have hxy : timeLe x y := hx
    simp [List.orderedInsert, hxy]

theorem sortByTime_concat_of_ge {l : List (ℚ × ℚ)} (x : ℚ × ℚ) (hl : l.Sorted timeLe)
    (hx : ∀ p ∈ l, p.1 ≤ x.1) : sortByTime (l ++ [x]) = l ++ [x] := by
  apply sortByTime_eq_self
  refine List.pairwise_append.mpr ⟨hl, List.pairwise_singleton _ _, ?_⟩
  intro a ha b hb
  have hb' : b = x := by simpa using hb
  subst hb'
  exact hx a ha

theorem wattSeries_sorted (df : DataFrame) (u : Option String) (h : String) :
    (wattSeries df u h).Sorted timeLe :=
  List.Pairwise.map _ (fun _ _ hab => hab) (hostSeries_sorted df h)

theorem wattSeries_length (df : DataFrame) (u : Option String) (h : String) :
    (wattSeries df u h).length = (hostSeries df h).length :=
  List.length_map _ _

/-! ### Invariance under dropping the `units` column entries -/

theorem filterHostRows_map_stripRow (rows : List Row) (h : String) :
    filterHostRows (rows.map stripRow) h = (filterHostRows rows h).map stripRow := by
  simp only [filterHostRows, List.filter_map]
  rfl

theorem parsedPoints_map_stripRow (rows : List Row) :
    parsedPoints (rows.map stripRow) = parsedPoints rows := by
  simp only [parsedPoints, List.filterMap_map]
  rfl

theorem hostSeries_stripUnits (df : DataFrame) (h : String) :
    hostSeries (stripUnits df) h = hostSeries df h := by
  simp only [hostSeries, stripUnits, filterHostRows_map_stripRow, parsedPoints_map_stripRow]

theorem hasRequiredCols_stripUnits (df : DataFrame) :
    hasRequiredCols (stripUnits df) = hasRequiredCols df := rfl

theorem filterHostRows_stripUnits_isEmpty (df : DataFrame) (h : String) :
    (filterHostRows (stripUnits df).rows h).isEmpty = (filterHostRows df.rows h).isEmpty := by
  rw [show (stripUnits df).rows = df.rows.map stripRow from rfl, filterHostRows_map_stripRow]
  cases filterHostRows df.rows h <;> rfl

theorem PowerUtils_compute_stripUnits (df : DataFrame) (u : Option String) (h : String)
    (qs qe : Option ℚ) :
    PowerUtils.compute_energy_kwh_for_hostname (stripUnits df) u h qs qe =
      PowerUtils.compute_energy_kwh_for_hostname df u h qs qe := by
  unfold PowerUtils.compute_energy_kwh_for_hostname
  simp only [hostSeries_stripUnits, hasRequiredCols_stripUnits, filterHostRows_stripUnits_isEmpty]

theorem AnalysisEnergy_compute_stripUnits (df : DataFrame) (u : Option String) (h : String)
    (qs qe : Option ℚ) :
    AnalysisEnergy.compute_energy_kwh_for_hostname (stripUnits df) u h qs qe =
      AnalysisEnergy.compute_energy_kwh_for_hostname df u h qs qe := by
  unfold AnalysisEnergy.compute_energy_kwh_for_hostname
  simp only [hostSeries_stripUnits, hasRequiredCols_stripUnits, filterHostRows_stripUnits_isEmpty]

/-! ### Characterisations of the integrators on the main branch -/

theorem hostSeries_ne_nil_host_nonempty {df : DataFrame} {h : String}
    (hpts : hostSeries df h ≠ []) : (filterHostRows df.rows h).isEmpty = false := by
  rcases hf : filterHostRows df.rows h with _ | ⟨r, rs⟩
  · exfalso
    apply hpts
    unfold hostSeries
    rw [hf]
    rfl
  · rfl

theorem hostSeries_isEmpty_false {df : DataFrame} {h : String}
    (hpts : hostSeries df h ≠ []) : (hostSeries df h).isEmpty = false := by
  cases hh : hostSeries df h
  · exact absurd hh hpts
  · rfl

theorem wattSeries_ne_nil {df : DataFrame} {u : Option String} {h : String}
    (hpts : hostSeries df h ≠ []) : wattSeries df u h ≠ [] := by
  intro hnil
  apply hpts
  have := wattSeries_length df u h
  rw [hnil] at this
  exact List.length_eq_zero.mp this.symm

theorem insertStartBoundary_props (pw : List (ℚ × ℚ)) (hs : pw.Sorted timeLe) (hne : pw ≠ [])
    (qs : Option ℚ) :
    (insertStartBoundary pw qs).Sorted timeLe ∧ insertStartBoundary pw qs ≠ [] ∧
      (insertStartBoundary pw qs).getLastD default = pw.getLastD default ∧
      trapezoidExactJ (insertStartBoundary pw qs) = edgeLeftJ pw qs + trapezoidExactJ pw := by
  obtain ⟨w, ws, rfl⟩ : ∃ w ws, pw = w :: ws := by
    cases pw with
    | nil => exact absurd rfl hne
    | cons w ws => exact ⟨w, ws, rfl⟩
  rcases qs with _ | s
  · refine ⟨hs, by simp [insertStartBoundary], rfl, ?_⟩
    simp [insertStartBoundary, edgeLeftJ]
  · by_cases hd : s < w.1
    · have heq : insertStartBoundary (w :: ws) (some s) = (s, w.2) :: w :: ws := by
        simp only [insertStartBoundary, List.headD_cons, if_pos hd]
        exact sortByTime_cons_of_le _ hs (le_of_lt hd)
      have hsort1 : ((s, w.2) :: w :: ws).Sorted timeLe := by
        refine List.sorted_cons.mpr ⟨?_, hs⟩
        intro b hb
        rcases List.mem_cons.mp hb with rfl | hb'
        · exact le_of_lt hd
        · exact le_trans (le_of_lt hd) ((List.sorted_cons.mp hs).1 b hb')
      rw [heq]
      refine ⟨hsort1, by simp, getLastD_cons_ne_nil (by simp) _ _, ?_⟩
      have hunf : trapezoidExactJ ((s, w.2) :: w :: ws) =
          (w.2 + w.2) / 2 * (w.1 - s) + trapezoidExactJ (w :: ws) := rfl
      rw [hunf]
      simp only [edgeLeftJ, List.headD_cons, gt_iff_lt, if_pos hd]
      ring
    · have heq : insertStartBoundary (w :: ws) (some s) = w :: ws := by
        simp only [insertStartBoundary, List.headD_cons, if_neg hd]
      rw [heq]
      refine ⟨hs, by simp, rfl, ?_⟩
      simp only [edgeLeftJ, List.headD_cons, gt_iff_lt, if_neg hd]
      ring

theorem insertEndBoundary_trap (pw1 : List (ℚ × ℚ)) (hs : pw1.Sorted timeLe) (hne : pw1 ≠ [])
    (qe : Option ℚ) :
    trapezoidExactJ (insertEndBoundary pw1 qe) = trapezoidExactJ pw1 + edgeRightJ pw1 qe := by
  rcases qe with _ | e
  · simp [insertEndBoundary, edgeRightJ]
  · by_cases hc : (pw1.getLastD default).1 < e
    · simp only [insertEndBoundary, edgeRightJ, if_pos hc]
      have hall : ∀ p ∈ pw1, p.1 ≤ e := fun p hp =>
        le_trans (sorted_le_getLastD hs default p hp) (le_of_lt hc)
      rw [sortByTime_concat_of_ge (e, (pw1.getLastD default).2) hs hall]
      rw [trapezoidExactJ_concat pw1 _ default hne]
      ring
    · simp only [insertEndBoundary, edgeRightJ, if_neg hc, add_zero]

theorem AnalysisEnergy_compute_of_ne_nil (df : DataFrame) (u : Option String) (h : String)
    (qs qe : Option ℚ) (hcols : hasRequiredCols df = true)
    (hne : hostSeries df h ≠ []) :
    AnalysisEnergy.compute_energy_kwh_for_hostname df u h qs qe =
      some ((edgeLeftJ (wattSeries df u h) qs + trapezoidExactJ (wattSeries df u h) +
        edgeRightJ (wattSeries df u h) qe) / 3600000) := by
  have hptsE := hostSeries_isEmpty_false hne
  have hhost := hostSeries_ne_nil_host_nonempty hne
  have hneW : wattSeries df u h ≠ [] := wattSeries_ne_nil hne
  have hsW := wattSeries_sorted df u h
  obtain ⟨hs1, hne1, hlast1, htrap1⟩ := insertStartBoundary_props _ hsW hneW qs
  have hright : edgeRightJ (insertStartBoundary (wattSeries df u h) qs) qe =
      edgeRightJ (wattSeries df u h) qe := by
    unfold edgeRightJ
    rw [hlast1]
  unfold AnalysisEnergy.compute_energy_kwh_for_hostname
  rw [if_neg (by simp [hcols]), if_neg (by simp [hhost]), if_neg (by simp [hptsE])]
  change some (trapezoidExactJ
    (insertEndBoundary (insertStartBoundary (wattSeries df u h) qs) qe) / 3600000) = _
  rw [insertEndBoundary_trap _ hs1 hne1 qe, htrap1, hright]

theorem PowerUtils_compute_of_two_le (df : DataFrame) (u : Option String) (h : String)
    (qs qe : Option ℚ) (hcols : hasRequiredCols df = true)
    (h2 : 2 ≤ (hostSeries df h).length) :
    PowerUtils.compute_energy_kwh_for_hostname df u h qs qe =
      some (max ((edgeLeftJ (wattSeries df u h) qs + trapezoidFloorJ (wattSeries df u h) +
        edgeRightJ (wattSeries df u h) qe) / 3600000) 0) := by
  have hne : hostSeries df h ≠ [] := by
    intro hnil
    rw [hnil] at h2
    simp at h2
  have hptsE := hostSeries_isEmpty_false hne
  have hhost := hostSeries_ne_nil_host_nonempty hne
  have h2' : 2 ≤ ((hostSeries df h).map
      (fun p => (p.1, convert_power_to_watts p.2 u))).length := by
    simpa using h2
  unfold PowerUtils.compute_energy_kwh_for_hostname
  rw [if_neg (by simp [hcols]), if_neg (by simp [hhost]), if_neg (by simp [hptsE])]
  simp only [if_pos h2']
  rfl

theorem PowerUtils_compute_of_length_one (df : DataFrame) (u : Option String) (h : String)
    (qs qe : Option ℚ) (hcols : hasRequiredCols df = true)
    (h1 : (hostSeries df h).length = 1) :
    PowerUtils.compute_energy_kwh_for_hostname df u h qs qe =
      (match qs, qe with
       | some s, some e =>
           some (max ((((wattSeries df u h).headD default).2 * (e - s) +
             edgeRightJ (wattSeries df u h) (some e)) / 3600000) 0)
       | _, _ => some 0) := by
  have hne : hostSeries df h ≠ [] := by
    intro hnil
    rw [hnil] at h1
    simp at h1
  have hptsE := hostSeries_isEmpty_false hne
  have hhost := hostSeries_ne_nil_host_nonempty hne
  have hlen : ¬ 2 ≤ ((hostSeries df h).map
      (fun p => (p.1, convert_power_to_watts p.2 u))).length := by
    simp [h1]
  unfold PowerUtils.compute_energy_kwh_for_hostname
  rw [if_neg (by simp [hcols]), if_neg (by simp [hhost]), if_neg (by simp [hptsE])]
  simp only [if_neg hlen]
  rcases qs with _ | s <;> rcases qe with _ | e <;> rfl

/-! ### Claim theorems -/

/-- C8: unit normalisation `to_watts` is linear (`to_watts(k·S, u) =
k·to_watts(S, u)`, also as a scalar), matches its unit case-insensitively
(`mW` divides by 1000, `kW` multiplies by 1000, `W` is identity), and any
unrecognised unit — including a missing or empty one — passes through
unchanged, on scalars and on series alike; the function is total, so no error
is ever raised. -/
theorem C8_to_watts_linear_and_unit_consistent (S : List ℚ) (k : ℚ) (u : Option String) :
    (convert_power_series_to_watts (S.map (fun v => k * v)) u =
      (convert_power_series_to_watts S u).map (fun v => k * v)) ∧
    (∀ v : ℚ, convert_power_to_watts (k * v) u = k * convert_power_to_watts v u) ∧
    convert_power_series_to_watts S (some "mW") = S.map (fun v => v / 1000) ∧
    convert_power_series_to_watts S (some "kW") = S.map (fun v => v * 1000) ∧
    convert_power_series_to_watts S (some "W") = S ∧
    convert_power_series_to_watts S none = S ∧
    (unitKey u ∉ (["mw", "kw", "w"] : List String) →
      convert_power_series_to_watts S u = S ∧ ∀ v : ℚ, convert_power_to_watts v u = v) := by
  have hscalar : ∀ v : ℚ, convert_power_to_watts (k * v) u = k * convert_power_to_watts v u := by
    intro v
    simp only [convert_power_to_watts]
    split_ifs <;> ring
  have hmw : ∀ v : ℚ, convert_power_to_watts v (some "mW") = v / 1000 := by
    intro v
    simp +decide [convert_power_to_watts, unitKey, strLower]
  have hkw : ∀ v : ℚ, convert_power_to_watts v (some "kW") = v * 1000 := by
    intro v
    simp +decide [convert_power_to_watts, unitKey, strLower]
  have hw : ∀ v : ℚ, convert_power_to_watts v (some "W") = v := by
    intro v
    simp +decide [convert_power_to_watts, unitKey, strLower]
  have hnoneu : ∀ v : ℚ, convert_power_to_watts v none = v := by
    intro v
    simp +decide [convert_power_to_watts, unitKey]
  have hpass : unitKey u ∉ (["mw", "kw", "w"] : List String) →
      ∀ v : ℚ, convert_power_to_watts v u = v := by
    intro hk v
    simp only [List.mem_cons, List.not_mem_nil, or_false, not_or] at hk
    obtain ⟨h1, h2, h3⟩ := hk
    simp only [convert_power_to_watts]
    rw [if_neg h1, if_neg h2, if_neg h3]
  refine ⟨?_, hscalar, ?_, ?_, ?_, ?_, fun hk => ⟨?_, hpass hk⟩⟩
  · simp only [convert_power_series_to_watts, List.map_map]
    congr 1
    funext v
    simp only [Function.comp_apply]
    exact hscalar v
  · simp only [convert_power_series_to_watts]
    exact List.map_congr_left (fun v _ => hmw v)
  · simp only [convert_power_series_to_watts]
    exact List.map_congr_left (fun v _ => hkw v)
  · simp only [convert_power_series_to_watts]
    rw [List.map_congr_left (fun v _ => hw v), List.map_id']
  · simp only [convert_power_series_to_watts]
    rw [List.map_congr_left (fun v _ => hnoneu v), List.map_id']
  · simp only [convert_power_series_to_watts]
    rw [List.map_congr_left (fun v _ => hpass hk v), List.map_id']

/-- Witness for C8 at a concrete unrecognised unit. -/
theorem C8_witness :
    unitKey (some "BTU") ∉ (["mw", "kw", "w"] : List String) ∧
    convert_power_series_to_watts [5] (some "BTU") = [5] :=
  ⟨by decide,
   ((C8_to_watts_linear_and_unit_consistent [5] 1 (some "BTU")).2.2.2.2.2.2 (by decide)).1⟩

/-- C6: the `Other` category equals
`max(SystemOutputPower − Σ(CPU + MEMORY + GPU + FAN + STORAGE), 0)`, is never
negative, is exactly 0 whenever the named categories sum to at least the
system output, and empty categories or lookups contribute zero instead of
erroring; on the spec's example (10 / 3 / 1 / 0.5 / 0.5 / 4) it is 1, and
with system output 5 it is 0.  The zen4 variant (no GPU) is likewise
non-negative. -/
theorem C6_other_residual_nonneg :
    (∀ ea : EnergyAnalysisH100, h100OtherEnergy ea =
        max (h100SystemOutput ea - (preferTotalOrSum ea.cpu "totalcpupower" +
          preferTotalOrSum ea.memory "totalmemorypower" + gpuTotalEnergy ea.gpu +
          preferTotalOrSum ea.fan "totalfanpower" +
          preferTotalOrSum ea.storage "totalstoragepower")) 0) ∧
    (∀ ea : EnergyAnalysisH100, 0 ≤ h100OtherEnergy ea) ∧
    (∀ ea : EnergyAnalysisH100, h100SystemOutput ea ≤ h100ComponentSum ea →
        h100OtherEnergy ea = 0) ∧
    (∀ pre : String, preferTotalOrSum [] pre = 0) ∧
    gpuTotalEnergy [] = 0 ∧
    (∀ k : String, lookupD [] k = 0) ∧
    (∀ ea : EnergyAnalysisZen4, 0 ≤ zen4OtherEnergy ea) ∧
    h100OtherEnergy eaExample = 1 ∧
    h100OtherEnergy eaOversum = 0 := by
  refine ⟨?_, ?_, ?_, ?_, ?_, ?_, ?_, ?_, ?_⟩
  · intro ea
    unfold h100OtherEnergy h100ComponentSum
    congr 1
    ring
  · intro ea
    exact le_max_right _ _
  · intro ea hle
    unfold h100OtherEnergy
    exact max_eq_right (by linarith)
  · intro pre
    rfl
  · rfl
  · intro k
    rfl
  · intro ea
    exact le_max_right _ _
  · have hfil : eaExample.gpu.filter (fun kv => strStartsWith kv.1 "PowerConsumption_FQDD_") =
        [("PowerConsumption_FQDD_0", (4:ℚ))] := rfl
    have hsum : sumValues [("PowerConsumption_FQDD_0", (4:ℚ))] = 4 := by
      simp [sumValues]
    have hgpu : gpuTotalEnergy eaExample.gpu = 4 := by
      simp only [gpuTotalEnergy, hfil, hsum]
      norm_num
    have hcpu : preferTotalOrSum eaExample.cpu "totalcpupower" = 3 := rfl
    have hmem : preferTotalOrSum eaExample.memory "totalmemorypower" = 1 := rfl
    have hfan : preferTotalOrSum eaExample.fan "totalfanpower" = 1/2 := rfl
    have hsto : preferTotalOrSum eaExample.storage "totalstoragepower" = 1/2 := rfl
    have hsys : h100SystemOutput eaExample = 10 := rfl
    simp only [h100OtherEnergy, h100ComponentSum, hcpu, hmem, hfan, hsto, hsys, hgpu]
    norm_num
  · have hfil : eaOversum.gpu.filter (fun kv => strStartsWith kv.1 "PowerConsumption_FQDD_") =
        [("PowerConsumption_FQDD_0", (4:ℚ))] := rfl
    have hsum : sumValues [("PowerConsumption_FQDD_0", (4:ℚ))] = 4 := by
      simp [sumValues]
    have hgpu : gpuTotalEnergy eaOversum.gpu = 4 := by
      simp only [gpuTotalEnergy, hfil, hsum]
      norm_num
    have hcpu : preferTotalOrSum eaOversum.cpu "totalcpupower" = 3 := rfl
    have hmem : preferTotalOrSum eaOversum.memory "totalmemorypower" = 1 := rfl
    have hfan : preferTotalOrSum eaOversum.fan "totalfanpower" = 1/2 := rfl
    have hsto : preferTotalOrSum eaOversum.storage "totalstoragepower" = 1/2 := rfl
    have hsys : h100SystemOutput eaOversum = 5 := rfl
    simp only [h100OtherEnergy, h100ComponentSum, hcpu, hmem, hfan, hsto, hsys, hgpu]
    norm_num

/-- Witness for C6: at the oversummed example the implication's hypothesis
holds and `Other` collapses to 0. -/
theorem C6_witness : h100OtherEnergy eaOversum = 0 :=
  C6_other_residual_nonneg.2.2.1 eaOversum (by
    have hfil : eaOversum.gpu.filter (fun kv => strStartsWith kv.1 "PowerConsumption_FQDD_") =
        [("PowerConsumption_FQDD_0", (4:ℚ))] := rfl
    have hsum : sumValues [("PowerConsumption_FQDD_0", (4:ℚ))] = 4 := by
      simp [sumValues]
    have hgpu : gpuTotalEnergy eaOversum.gpu = 4 := by
      simp only [gpuTotalEnergy, hfil, hsum]
      norm_num
    have hcpu : preferTotalOrSum eaOversum.cpu "totalcpupower" = 3 := rfl
    have hmem : preferTotalOrSum eaOversum.memory "totalmemorypower" = 1 := rfl
    have hfan : preferTotalOrSum eaOversum.fan "totalfanpower" = 1/2 := rfl
    have hsto : preferTotalOrSum eaOversum.storage "totalstoragepower" = 1/2 := rfl
    have hsys : h100SystemOutput eaOversum = 5 := rfl
    simp only [h100ComponentSum, hcpu, hmem, hfan, hsto, hsys, hgpu]
    norm_num)

/-- C5 (amended): the disambiguator returns `use_boundaries = False` exactly
when `gap_before > 7200`, or `gap_after > 7200`, or (a gap exceeds 3600 AND
the query duration is positive AND `data_duration > 2 × query_duration`),
where `gap_before = max(data_start − query_start, 0)` and
`gap_after = max(query_end − data_end, 0)`; the original claim omitted the
`query_duration > 0` guard present in the source.  The decision is a total
function, so it never raises.  At `gap_before = 7201 s` it returns `False`;
at `gap_before = 7199 s` with comparable durations it returns `True`. -/
theorem C5_disambiguator_threshold (ds de s e : ℚ) :
    (disambiguateUseBoundaries ds de s e = false ↔
      (max (ds - s) 0 > 7200 ∨ max (e - de) 0 > 7200 ∨
        ((max (ds - s) 0 > 3600 ∨ max (e - de) 0 > 3600) ∧
          0 < e - s ∧ de - ds > 2 * (e - s)))) ∧
    disambiguateUseBoundaries 7201 7301 0 7301 = false ∧
    disambiguateUseBoundaries 7199 10799 0 10799 = true := by
  refine ⟨?_, ?_, ?_⟩
  · have hgb : (if ds > s then ds - s else 0) = max (ds - s) 0 := by
      by_cases hc : ds > s
      · rw [if_pos hc, max_eq_left (by linarith)]
      · rw [if_neg hc, max_eq_right (by linarith)]
    have hga : (if e > de then e - de else 0) = max (e - de) 0 := by
      by_cases hc : e > de
      · rw [if_pos hc, max_eq_left (by linarith)]
      · rw [if_neg hc, max_eq_right (by linarith)]
    have habsgb : |max (ds - s) 0| = max (ds - s) 0 := abs_of_nonneg (le_max_right _ _)
    have habsga : |max (e - de) 0| = max (e - de) 0 := abs_of_nonneg (le_max_right _ _)
    simp only [disambiguateUseBoundaries, hgb, hga, habsgb, habsga]
    split_ifs with h1 h2 h3 h4
    · exact ⟨fun _ => Or.inl h1, fun _ => rfl⟩
    · exact ⟨fun _ => Or.inr (Or.inl h2), fun _ => rfl⟩
    · exact ⟨fun _ => Or.inr (Or.inr ⟨h3, h4.1, by linarith [h4.2]⟩), fun _ => rfl⟩
    · simp only [Bool.true_eq_false, false_iff]
      rintro (hc | hc | ⟨hgap, hqd, hdd⟩)
      · exact h1 hc
      · exact h2 hc
      · exact h4 ⟨hqd, by linarith⟩
    · simp only [Bool.true_eq_false, false_iff]
      rintro (hc | hc | ⟨hgap, hqd, hdd⟩)
      · exact h1 hc
      · exact h2 hc
      · exact h3 hgap
  · norm_num [disambiguateUseBoundaries]
  · norm_num [disambiguateUseBoundaries]

/-- Counterexample to C5 as stated: with a zero-length query window
(`query_start = query_end = 0`) and data spanning 4000..5000, the claim's
predicate holds (`gap_before = 4000 > 3600` and
`data_duration = 1000 > 2 × query_duration = 0`), yet the source keeps
`use_boundaries = True` because of its `query_duration > 0` guard. -/
theorem C5_counterexample :
    disambiguateUseBoundaries 4000 5000 0 0 = true ∧
    max ((4000:ℚ) - 0) 0 > 3600 ∧ (5000:ℚ) - 4000 > 2 * ((0:ℚ) - 0) ∧
    ¬ (max ((4000:ℚ) - 0) 0 > 7200 ∨ max ((0:ℚ) - 5000) 0 > 7200) := by
  refine ⟨by norm_num [disambiguateUseBoundaries], by norm_num, by norm_num, by norm_num⟩

/-- Helper for C9: whenever the required columns are present the power_utils
integrator returns a value instead of raising. -/
theorem PowerUtils_compute_isSome_of_cols (df : DataFrame) (u : Option String) (h : String)
    (qs qe : Option ℚ) (hcols : hasRequiredCols df = true) :
    ∃ v, PowerUtils.compute_energy_kwh_for_hostname df u h qs qe = some v := by
  unfold PowerUtils.compute_energy_kwh_for_hostname
  rw [if_neg (by simp [hcols])]
  by_cases hE : (filterHostRows df.rows h).isEmpty
  · rw [if_pos hE]
    exact ⟨0, rfl⟩
  · rw [if_neg hE]
    by_cases hP : (hostSeries df h).isEmpty
    · rw [if_pos hP]
      exact ⟨0, rfl⟩
    · rw [if_neg hP]
      by_cases hlen : 2 ≤ ((hostSeries df h).map
          (fun p => (p.1, convert_power_to_watts p.2 u))).length
      · simp only [if_pos hlen]
        exact ⟨_, rfl⟩
      · simp only [if_neg hlen]
        rcases qs with _ | s <;> rcases qe with _ | e
        · exact ⟨0, rfl⟩
        · exact ⟨0, rfl⟩
        · exact ⟨0, rfl⟩
        · exact ⟨_, rfl⟩

/-- C9: the power_utils integrator raises exactly when a required column
(timestamp / hostname / value) is missing; with the columns present, zero
rows matching the hostname yield `0.0`, a row whose timestamp failed to
parse is silently dropped without changing the result, and zero rows
surviving timestamp parsing yield `0.0`. -/
theorem C9_invalid_input_vs_soft_zero (df : DataFrame) (u : Option String) (h : String)
    (qs qe : Option ℚ) :
    ((PowerUtils.compute_energy_kwh_for_hostname df u h qs qe = none) ↔
      hasRequiredCols df = false) ∧
    (hasRequiredCols df = true → filterHostRows df.rows h = [] →
      PowerUtils.compute_energy_kwh_for_hostname df u h qs qe = some 0) ∧
    (∀ r : Row, r.timestamp = none →
      PowerUtils.compute_energy_kwh_for_hostname ⟨df.cols, r :: df.rows⟩ u h qs qe =
        PowerUtils.compute_energy_kwh_for_hostname df u h qs qe) ∧
    (hasRequiredCols df = true → parsedPoints (filterHostRows df.rows h) = [] →
      PowerUtils.compute_energy_kwh_for_hostname df u h qs qe = some 0) := by
  refine ⟨⟨?_, ?_⟩, ?_, ?_, ?_⟩
  · intro hN
    cases hcf : hasRequiredCols df
    · rfl
    · obtain ⟨v, hv⟩ := PowerUtils_compute_isSome_of_cols df u h qs qe hcf
      rw [hv] at hN
      exact absurd hN (by simp)
  · intro hcols
    unfold PowerUtils.compute_energy_kwh_for_hostname
    rw [if_pos (by simp [hcols])]
  · intro hcols hnil
    unfold PowerUtils.compute_energy_kwh_for_hostname
    rw [if_neg (by simp [hcols]), if_pos (by simp [hnil])]
  · intro r hr
    have hcols' : hasRequiredCols ⟨df.cols, r :: df.rows⟩ = hasRequiredCols df := rfl
    cases hcf : hasRequiredCols df
    · unfold PowerUtils.compute_energy_kwh_for_hostname
      rw [if_pos (by simp [hcols', hcf]), if_pos (by simp [hcf])]
    · have hfilter : filterHostRows (r :: df.rows) h =
          if r.hostname == h then r :: filterHostRows df.rows h
          else filterHostRows df.rows h := by
        simp only [filterHostRows, List.filter_cons]
      have hpp : parsedPoints (filterHostRows (r :: df.rows) h) =
          parsedPoints (filterHostRows df.rows h) := by
        rw [hfilter]
        split_ifs
        · simp [parsedPoints, hr]
        · rfl
      have hhs : hostSeries ⟨df.cols, r :: df.rows⟩ h = hostSeries df h := by
        unfold hostSeries
        rw [show (⟨df.cols, r :: df.rows⟩ : DataFrame).rows = r :: df.rows from rfl, hpp]
      unfold PowerUtils.compute_energy_kwh_for_hostname
      rw [show (⟨df.cols, r :: df.rows⟩ : DataFrame).rows = r :: df.rows from rfl]
      simp only [hcols', hhs, hfilter]
      by_cases hbeq : r.hostname == h
      · simp only [if_pos hbeq]
        cases hfil : filterHostRows df.rows h with
        | nil =>
          have hps : hostSeries df h = [] := by
            unfold hostSeries
            rw [hfil]
            rfl
          simp [hps]
        | cons x xs =>
          simp [List.isEmpty_cons]
      · simp only [if_neg hbeq]
  · intro hcols hpp0
    have hps : hostSeries df h = [] := by
      unfold hostSeries
      rw [hpp0]
      rfl
    unfold PowerUtils.compute_energy_kwh_for_hostname
    rw [if_neg (by simp [hcols])]
    by_cases hE : (filterHostRows df.rows h).isEmpty
    · rw [if_pos hE]
    · rw [if_neg hE, if_pos (by simp [hps])]

/-- Witness for C9: prepending an unparseable-timestamp row for the queried
host leaves the result unchanged, and the two-good-row frame evaluates. -/
theorem C9_witness :
    PowerUtils.compute_energy_kwh_for_hostname dfWithBadTimestamp (some "W") "h" none none =
      PowerUtils.compute_energy_kwh_for_hostname dfGoodPair (some "W") "h" none none ∧
    PowerUtils.compute_energy_kwh_for_hostname dfGoodPair (some "W") "h" none none =
      some (1/600) :=
  ⟨(C9_invalid_input_vs_soft_zero dfGoodPair (some "W") "h" none none).2.2.1
      ⟨none, "h", 7, none⟩ rfl,
   by norm_num +decide [PowerUtils.compute_energy_kwh_for_hostname, hasRequiredCols, hostSeries,
      filterHostRows, parsedPoints, sortByTime, List.insertionSort, List.orderedInsert,
      timeLe, trapezoidFloorJ, convert_power_to_watts, unitKey, strLower, dfGoodPair]⟩

/-- Clamping commutes with the kWh conversion. -/
theorem max_div_3600000 (x : ℚ) : max (x / 3600000) 0 = max x 0 / 3600000 := by
  rcases le_total x 0 with hx | hx
  · have h1 : x / 3600000 ≤ 0 := by
      rw [div_nonpos_iff]
      exact Or.inr ⟨hx, by norm_num⟩
    rw [max_eq_right h1, max_eq_right hx]
    norm_num
  · have h1 : 0 ≤ x / 3600000 := div_nonneg hx (by norm_num)
    rw [max_eq_left h1, max_eq_left hx]

/-- C1 (amended): on a series with at least two valid samples the power_utils
integrator returns `max(E, 0) / 3,600,000` kWh where `E` is the sum of the
left-edge estimate (added exactly when `query_start` is supplied and
`data_start > query_start`), the trapezoidal core, and the right-edge
estimate (added exactly when `query_end` is supplied and
`data_end < query_end`) — with the amendment that the trapezoidal core's
`dt` is the difference of the timestamps floored to whole seconds
(`.astype("int64") // 10**9`), not of the raw timestamps; the two formulas
coincide whenever all timestamps are whole seconds, as in the spec's
(10:00, 100 W), (10:02, 200 W) example, which yields 0.005 kWh. -/
theorem C1_trapezoid_with_edge_estimates (df : DataFrame) (u : Option String) (h : String)
    (qs qe : Option ℚ) (hcols : hasRequiredCols df = true)
    (h2 : 2 ≤ (hostSeries df h).length) :
    PowerUtils.compute_energy_kwh_for_hostname df u h qs qe =
      some (max (edgeLeftJ (wattSeries df u h) qs + trapezoidFloorJ (wattSeries df u h) +
        edgeRightJ (wattSeries df u h) qe) 0 / 3600000) := by
  rw [PowerUtils_compute_of_two_le df u h qs qe hcols h2, max_div_3600000]

/-- Witness for C1 on the spec's two-point example: 0.005 kWh. -/
theorem C1_witness :
    PowerUtils.compute_energy_kwh_for_hostname dfTwoPoint (some "W") "h" none none =
      some (1/200) := by
  rw [C1_trapezoid_with_edge_estimates dfTwoPoint (some "W") "h" none none (by decide)
    (by norm_num +decide [hostSeries, filterHostRows, parsedPoints, sortByTime,
      List.insertionSort, List.orderedInsert, timeLe, dfTwoPoint])]
  norm_num +decide [edgeLeftJ, edgeRightJ, wattSeries, hostSeries, filterHostRows,
    parsedPoints, sortByTime, List.insertionSort, List.orderedInsert, timeLe,
    trapezoidFloorJ, convert_power_to_watts, unitKey, strLower, dfTwoPoint]

/-- Counterexample to C1 as stated: on two samples half a second apart the
source floors both timestamps to 0 s, so the trapezoid contributes nothing
and the result is 0 kWh, while the claim's exact-`dt` formula gives
(100+100)/2 × 0.5 s = 50 J = 1/72000 kWh. -/
theorem C1_counterexample :
    PowerUtils.compute_energy_kwh_for_hostname dfSubsecond (some "W") "h" none none =
      some 0 ∧
    specEnergyExactDt dfSubsecond (some "W") "h" none none = 1/72000 ∧
    some (specEnergyExactDt dfSubsecond (some "W") "h" none none) ≠
      PowerUtils.compute_energy_kwh_for_hostname dfSubsecond (some "W") "h" none none := by
  have h1 : PowerUtils.compute_energy_kwh_for_hostname dfSubsecond (some "W") "h" none none =
      some 0 := by
    norm_num +decide [PowerUtils.compute_energy_kwh_for_hostname, hasRequiredCols, hostSeries,
      filterHostRows, parsedPoints, sortByTime, List.insertionSort, List.orderedInsert,
      timeLe, trapezoidFloorJ, convert_power_to_watts, unitKey, strLower, dfSubsecond]
  have h2 : specEnergyExactDt dfSubsecond (some "W") "h" none none = 1/72000 := by
    norm_num +decide [specEnergyExactDt, edgeLeftJ, edgeRightJ, wattSeries, hostSeries,
      filterHostRows, parsedPoints, sortByTime, List.insertionSort, List.orderedInsert,
      timeLe, trapezoidExactJ, convert_power_to_watts, unitKey, strLower, dfSubsecond]
  refine ⟨h1, h2, ?_⟩
  rw [h1, h2]
  norm_num

/-- C2 (amended): with exactly one valid sample and both query bounds
supplied, the power_utils integrator returns
`max((first_power × (query_end − query_start) + right_edge) / 3,600,000, 0)`
where the right-edge estimate `last_power × (query_end − data_end)` is STILL
added whenever `data_end < query_end` — the single-point assignment discards
the left-edge estimate but execution falls through to the right-edge block,
so the claim's "skip steps 3/5" only holds for step 3; with either bound
missing the function returns 0.0; a zero-duration window yields 0.0 exactly
when the sample does not precede `query_end`. -/
theorem C2_single_sample_window (df : DataFrame) (u : Option String) (h : String)
    (s e : ℚ) (hcols : hasRequiredCols df = true)
    (h1 : (hostSeries df h).length = 1) :
    (PowerUtils.compute_energy_kwh_for_hostname df u h (some s) (some e) =
      some (max ((((wattSeries df u h).headD default).2 * (e - s) +
        edgeRightJ (wattSeries df u h) (some e)) / 3600000) 0)) ∧
    (∀ qs qe : Option ℚ, qs = none ∨ qe = none →
      PowerUtils.compute_energy_kwh_for_hostname df u h qs qe = some 0) := by
  constructor
  · rw [PowerUtils_compute_of_length_one df u h (some s) (some e) hcols h1]
  · intro qs qe hor
    rw [PowerUtils_compute_of_length_one df u h qs qe hcols h1]
    rcases hor with rfl | rfl
    · rfl
    · rcases qs with _ | s'
      · rfl
      · rfl

/-- Witness for C2: one sample (10:05, 100 W) with window 10:00..10:10
evaluates through the amended formula to 0.025 kWh. -/
theorem C2_witness :
    PowerUtils.compute_energy_kwh_for_hostname dfSinglePoint (some "W") "h"
      (some 36000) (some 36600) = some (1/40) := by
  rw [(C2_single_sample_window dfSinglePoint (some "W") "h" 36000 36600 (by decide)
    (by norm_num +decide [hostSeries, filterHostRows, parsedPoints, sortByTime,
      List.insertionSort, List.orderedInsert, timeLe, dfSinglePoint])).1]
  norm_num +decide [edgeRightJ, wattSeries, hostSeries, filterHostRows, parsedPoints,
    sortByTime, List.insertionSort, List.orderedInsert, timeLe,
    convert_power_to_watts, unitKey, strLower, dfSinglePoint]

/-- Counterexample to C2 as stated: the spec's own example — one sample at
10:05 of 100 W with window 10:00..10:10 — returns 0.025 kWh (90000 J),
not `first_power × (query_end − query_start) / 3.6e6 ≈ 0.01667` kWh
(60000 J): the right-edge estimate is not skipped. -/
theorem C2_counterexample :
    PowerUtils.compute_energy_kwh_for_hostname dfSinglePoint (some "W") "h"
      (some 36000) (some 36600) = some (1/40) ∧
    (1/40 : ℚ) ≠ 100 * (36600 - 36000) / 3600000 := by
  constructor
  · norm_num +decide [PowerUtils.compute_energy_kwh_for_hostname, hasRequiredCols, hostSeries,
      filterHostRows, parsedPoints, sortByTime, List.insertionSort, List.orderedInsert,
      timeLe, trapezoidFloorJ, convert_power_to_watts, unitKey, strLower, dfSinglePoint]
  · norm_num

/-- C4 (amended): the edge-hold integrator of core/power_utils.py clamps and
therefore never returns a negative energy, for every input (negative power
values included). -/
theorem C4_power_utils_energy_nonneg (df : DataFrame) (u : Option String) (h : String)
    (qs qe : Option ℚ) (v : ℚ)
    (hv : PowerUtils.compute_energy_kwh_for_hostname df u h qs qe = some v) : 0 ≤ v := by
  unfold PowerUtils.compute_energy_kwh_for_hostname at hv
  by_cases hcols : hasRequiredCols df = false
  · rw [if_pos hcols] at hv
    exact absurd hv (by simp)
  · rw [if_neg hcols] at hv
    by_cases hE : (filterHostRows df.rows h).isEmpty
    · rw [if_pos hE] at hv
      cases hv
      exact le_refl 0
    · rw [if_neg hE] at hv
      by_cases hP : (hostSeries df h).isEmpty
      · rw [if_pos hP] at hv
        cases hv
        exact le_refl 0
      · rw [if_neg hP] at hv
        by_cases hlen : 2 ≤ ((hostSeries df h).map
            (fun p => (p.1, convert_power_to_watts p.2 u))).length
        · simp only [if_pos hlen] at hv
          cases hv
          exact le_max_right _ _
        · simp only [if_neg hlen] at hv
          rcases qs with _ | s <;> rcases qe with _ | e
          · cases hv; exact le_refl 0
          · cases hv; exact le_refl 0
          · cases hv; exact le_refl 0
          · cases hv; exact le_max_right _ _

/-- Witness for C4: on a series of −100 W samples the clamped integrator
returns exactly 0, and the theorem applies to it. -/
theorem C4_witness :
    PowerUtils.compute_energy_kwh_for_hostname dfNegPower (some "W") "h" none none =
      some 0 ∧ (0:ℚ) ≤ 0 := by
  have hz : PowerUtils.compute_energy_kwh_for_hostname dfNegPower (some "W") "h" none none =
      some 0 := by
    norm_num +decide [PowerUtils.compute_energy_kwh_for_hostname, hasRequiredCols, hostSeries,
      filterHostRows, parsedPoints, sortByTime, List.insertionSort, List.orderedInsert,
      timeLe, trapezoidFloorJ, convert_power_to_watts, unitKey, strLower, dfNegPower]
  exact ⟨hz, C4_power_utils_energy_nonneg dfNegPower (some "W") "h" none none 0 hz⟩

/-- Counterexample to C4 as stated: the boundary-row-insertion variant in
analysis/energy.py has no clamp and returns −1/600 kWh on a −100 W series. -/
theorem C4_counterexample :
    AnalysisEnergy.compute_energy_kwh_for_hostname dfNegPower (some "W") "h" none none =
      some (-(1/600)) ∧ (-(1/600) : ℚ) < 0 := by
  constructor
  · norm_num +decide [AnalysisEnergy.compute_energy_kwh_for_hostname, hasRequiredCols,
      hostSeries, filterHostRows, parsedPoints, sortByTime, List.insertionSort,
      List.orderedInsert, timeLe, trapezoidExactJ, insertStartBoundary, insertEndBoundary,
      convert_power_to_watts, unitKey, strLower, dfNegPower]
  · norm_num

/-- The left-edge estimate is non-negative when every power is. -/
theorem edgeLeftJ_nonneg {pw : List (ℚ × ℚ)} (hne : pw ≠ []) (hnn : ∀ p ∈ pw, 0 ≤ p.2)
    (qs : Option ℚ) : 0 ≤ edgeLeftJ pw qs := by
  rcases qs with _ | s
  · simp [edgeLeftJ]
  · show 0 ≤
      (if (pw.headD default).1 > s then (pw.headD default).2 * ((pw.headD default).1 - s) else 0)
    by_cases hgt : (pw.headD default).1 > s
    · rw [if_pos hgt]
      apply mul_nonneg
      · cases pw with
        | nil => exact absurd rfl hne
        | cons a t =>
          simp only [List.headD_cons]
          exact hnn a (by simp)
      · linarith
    · rw [if_neg hgt]

/-- The right-edge estimate is non-negative when every power is. -/
theorem edgeRightJ_nonneg {pw : List (ℚ × ℚ)} (hne : pw ≠ []) (hnn : ∀ p ∈ pw, 0 ≤ p.2)
    (qe : Option ℚ) : 0 ≤ edgeRightJ pw qe := by
  rcases qe with _ | e
  · simp [edgeRightJ]
  · show 0 ≤
      (if (pw.getLastD default).1 < e then
        (pw.getLastD default).2 * (e - (pw.getLastD default).1) else 0)
    by_cases hlt : (pw.getLastD default).1 < e
    · rw [if_pos hlt]
      apply mul_nonneg
      · obtain ⟨x, hx⟩ := Option.isSome_iff_exists.mp (List.getLast?_isSome.mpr hne)
        rw [List.getLastD_eq_getLast?, hx]
        exact hnn x (List.mem_of_getLast?_eq_some hx)
      · linarith
    · rw [if_neg hlt]

/-- C3 (amended): the two `compute_energy_kwh_for_hostname` treatments agree
on every input with at least 2 valid samples whose timestamps are whole
seconds and whose values are non-negative, for every unit and every window
combination.  Without those restrictions they differ: the core variant
floors timestamps to whole seconds and clamps at 0, the analysis variant
does neither. -/
theorem C3_variant_equivalence (df : DataFrame) (u : Option String) (h : String)
    (qs qe : Option ℚ)
    (hint : ∀ p ∈ hostSeries df h, ((Int.floor p.1 : ℤ) : ℚ) = p.1)
    (hnn : ∀ p ∈ hostSeries df h, 0 ≤ p.2)
    (h2 : 2 ≤ (hostSeries df h).length) :
    PowerUtils.compute_energy_kwh_for_hostname df u h qs qe =
      AnalysisEnergy.compute_energy_kwh_for_hostname df u h qs qe := by
  by_cases hcols : hasRequiredCols df = true
  · have hne : hostSeries df h ≠ [] := by
      intro hnil
      rw [hnil] at h2
      simp at h2
    rw [PowerUtils_compute_of_two_le df u h qs qe hcols h2,
      AnalysisEnergy_compute_of_ne_nil df u h qs qe hcols hne]
    have hwnn : ∀ p ∈ wattSeries df u h, 0 ≤ p.2 := by
      intro p hp
      obtain ⟨q, hq, rfl⟩ := List.mem_map.mp hp
      have hq2 := hnn q hq
      show 0 ≤ convert_power_to_watts q.2 u
      simp only [convert_power_to_watts]
      split_ifs
      · exact div_nonneg hq2 (by norm_num)
      · exact mul_nonneg hq2 (by norm_num)
      · exact hq2
      · exact hq2
    have hfloor : trapezoidFloorJ (wattSeries df u h) = trapezoidExactJ (wattSeries df u h) := by
      apply trapezoidFloorJ_eq_exact
      intro p hp
      obtain ⟨q, hq, rfl⟩ := List.mem_map.mp hp
      exact hint q hq
    have hneW : wattSeries df u h ≠ [] := wattSeries_ne_nil hne
    have hEnn : 0 ≤ edgeLeftJ (wattSeries df u h) qs + trapezoidExactJ (wattSeries df u h) +
        edgeRightJ (wattSeries df u h) qe := by
      have hL := edgeLeftJ_nonneg hneW hwnn qs
      have hT := trapezoidExactJ_nonneg (wattSeries_sorted df u h) hwnn
      have hR := edgeRightJ_nonneg hneW hwnn qe
      linarith
    rw [hfloor, max_eq_left (div_nonneg hEnn (by norm_num))]
  · have hc : hasRequiredCols df = false := by
      cases hcf : hasRequiredCols df
      · rfl
      · exact absurd hcf hcols
    unfold PowerUtils.compute_energy_kwh_for_hostname
      AnalysisEnergy.compute_energy_kwh_for_hostname
    rw [if_pos (by simp [hc]), if_pos (by simp [hc])]

/-- Witness for C3 at the two-point example with a strictly larger window. -/
theorem C3_witness :
    PowerUtils.compute_energy_kwh_for_hostname dfTwoPoint (some "W") "h"
      (some 35000) (some 37000) =
    AnalysisEnergy.compute_energy_kwh_for_hostname dfTwoPoint (some "W") "h"
      (some 35000) (some 37000) :=
  C3_variant_equivalence dfTwoPoint (some "W") "h" (some 35000) (some 37000)
    (by norm_num +decide [hostSeries, filterHostRows, parsedPoints, sortByTime,
      List.insertionSort, List.orderedInsert, timeLe, dfTwoPoint])
    (by norm_num +decide [hostSeries, filterHostRows, parsedPoints, sortByTime,
      List.insertionSort, List.orderedInsert, timeLe, dfTwoPoint])
    (by norm_num +decide [hostSeries, filterHostRows, parsedPoints, sortByTime,
      List.insertionSort, List.orderedInsert, timeLe, dfTwoPoint])

/-- Counterexample to C3 as stated: on two −100 W samples one minute apart
(2 valid samples, unit `W`, no window) the clamped core variant returns 0
while the analysis variant returns −1/600 kWh. -/
theorem C3_counterexample :
    2 ≤ (hostSeries dfNegPower "h").length ∧
    PowerUtils.compute_energy_kwh_for_hostname dfNegPower (some "W") "h" none none =
      some 0 ∧
    AnalysisEnergy.compute_energy_kwh_for_hostname dfNegPower (some "W") "h" none none =
      some (-(1/600)) ∧
    PowerUtils.compute_energy_kwh_for_hostname dfNegPower (some "W") "h" none none ≠
      AnalysisEnergy.compute_energy_kwh_for_hostname dfNegPower (some "W") "h" none none := by
  have hP : PowerUtils.compute_energy_kwh_for_hostname dfNegPower (some "W") "h" none none =
      some 0 := by
    norm_num +decide [PowerUtils.compute_energy_kwh_for_hostname, hasRequiredCols, hostSeries,
      filterHostRows, parsedPoints, sortByTime, List.insertionSort, List.orderedInsert,
      timeLe, trapezoidFloorJ, convert_power_to_watts, unitKey, strLower, dfNegPower]
  have hA : AnalysisEnergy.compute_energy_kwh_for_hostname dfNegPower (some "W") "h"
      none none = some (-(1/600)) := by
    norm_num +decide [AnalysisEnergy.compute_energy_kwh_for_hostname, hasRequiredCols,
      hostSeries, filterHostRows, parsedPoints, sortByTime, List.insertionSort,
      List.orderedInsert, timeLe, trapezoidExactJ, insertStartBoundary, insertEndBoundary,
      convert_power_to_watts, unitKey, strLower, dfNegPower]
  refine ⟨?_, hP, hA, ?_⟩
  · norm_num +decide [hostSeries, filterHostRows, parsedPoints, sortByTime,
      List.insertionSort, List.orderedInsert, timeLe, dfNegPower]
  · rw [hP, hA]
    norm_num

/-- C7 (amended): the batch scripts read the unit exactly once — from row 0
of the `units` column (not the first non-null row) with a `'W'` default —
and apply it uniformly: the integrator result is fully determined by the
extracted unit together with the unit-free data, so per-row unit tags are
never re-checked. -/
theorem C7_unit_read_once_applied_uniformly (df1 df2 : DataFrame) (h : String)
    (qs qe : Option ℚ)
    (hstrip : stripUnits df1 = stripUnits df2)
    (hz : extractUnitFirst df1 = extractUnitFirst df2)
    (hp : extractUnitPowerAnalysis df1 = extractUnitPowerAnalysis df2) :
    zen4MetricEnergy df1 h qs qe = zen4MetricEnergy df2 h qs qe ∧
    powerAnalysisMetricEnergy df1 h qs qe = powerAnalysisMetricEnergy df2 h qs qe := by
  constructor
  · unfold zen4MetricEnergy
    rw [hz, ← AnalysisEnergy_compute_stripUnits df1, ← AnalysisEnergy_compute_stripUnits df2,
      hstrip]
  · unfold powerAnalysisMetricEnergy
    rw [hp, ← PowerUtils_compute_stripUnits df1, ← PowerUtils_compute_stripUnits df2,
      hstrip]

/-- Witness for C7: retagging the units of a non-initial row changes neither
batch result. -/
theorem C7_witness :
    zen4MetricEnergy dfUnitsNullFirst "h" none none =
      zen4MetricEnergy dfUnitsNullFirstRetag "h" none none ∧
    powerAnalysisMetricEnergy dfUnitsNullFirst "h" none none =
      powerAnalysisMetricEnergy dfUnitsNullFirstRetag "h" none none :=
  C7_unit_read_once_applied_uniformly dfUnitsNullFirst dfUnitsNullFirstRetag "h" none none
    (by decide) (by decide) (by decide)

/-- Counterexample to C7 as stated: with a units column reading
[null, "kW"], the source extracts row 0's null (treated as Watts) rather
than the first non-null "kW", so the computed energy is 1/60000 kWh instead
of the 1/60 kWh that the claimed first-non-null rule would give. -/
theorem C7_counterexample :
    extractUnitFirst dfUnitsNullFirst = none ∧
    firstNonNullUnit dfUnitsNullFirst = some "kW" ∧
    zen4MetricEnergy dfUnitsNullFirst "h" none none = some (1/60000) ∧
    AnalysisEnergy.compute_energy_kwh_for_hostname dfUnitsNullFirst
      (firstNonNullUnit dfUnitsNullFirst) "h" none none = some (1/60) ∧
    zen4MetricEnergy dfUnitsNullFirst "h" none none ≠
      AnalysisEnergy.compute_energy_kwh_for_hostname dfUnitsNullFirst
        (firstNonNullUnit dfUnitsNullFirst) "h" none none := by
  have h1 : extractUnitFirst dfUnitsNullFirst = none := by decide
  have h2 : firstNonNullUnit dfUnitsNullFirst = some "kW" := by decide
  have h3 : zen4MetricEnergy dfUnitsNullFirst "h" none none = some (1/60000) := by
    unfold zen4MetricEnergy
    rw [h1]
    norm_num +decide [AnalysisEnergy.compute_energy_kwh_for_hostname, hasRequiredCols,
      hostSeries, filterHostRows, parsedPoints, sortByTime, List.insertionSort,
      List.orderedInsert, timeLe, trapezoidExactJ, insertStartBoundary, insertEndBoundary,
      convert_power_to_watts, unitKey, strLower, dfUnitsNullFirst]
  have h4 : AnalysisEnergy.compute_energy_kwh_for_hostname dfUnitsNullFirst
      (firstNonNullUnit dfUnitsNullFirst) "h" none none = some (1/60) := by
    rw [h2]
    norm_num +decide [AnalysisEnergy.compute_energy_kwh_for_hostname, hasRequiredCols,
      hostSeries, filterHostRows, parsedPoints, sortByTime, List.insertionSort,
      List.orderedInsert, timeLe, trapezoidExactJ, insertStartBoundary, insertEndBoundary,
      convert_power_to_watts, unitKey, strLower, dfUnitsNullFirst]
  refine ⟨h1, h2, h3, h4, ?_⟩
  rw [h3, h4]
  norm_num

/-- C10 (amended): in the table-driven script an empty result set returns
0.0 before the integrator is invoked at all (the claim said the window would
still be passed through); with a non-empty, fully-parseable result set and
either bound missing, no timezone-mismatch detection occurs — the
`use_boundaries` match keeps its `True` initialisation — and the query
window is handed to the integrator unchanged. -/
theorem C10_window_passthrough (df : DataFrame) (h : String) (qs qe : Option ℚ) :
    (df.rows = [] → calculate_energy_for_row df h qs qe = (0, none)) ∧
    (df.rows ≠ [] → (∀ r ∈ df.rows, r.timestamp.isSome) → (qs = none ∨ qe = none) →
      calculate_energy_for_row df h qs qe =
        (match AnalysisEnergy.compute_energy_kwh_for_hostname df (extractUnitFirst df)
            h qs qe with
         | some v => (v, some (qs, qe))
         | none => (0, none))) := by
  constructor
  · intro hnil
    unfold calculate_energy_for_row
    rw [if_pos (by simp [hnil])]
  · intro hne hts hor
    have hE : df.rows.isEmpty = false := by
      cases hrr : df.rows
      · exact absurd hrr hne
      · rfl
    have hA : df.rows.any (fun r => r.timestamp.isNone) = false := by
      rw [List.any_eq_false]
      intro r hr
      have h' := hts r hr
      cases hrt : r.timestamp
      · rw [hrt] at h'
        simp at h'
      · simp [hrt]
    rcases hor with rfl | rfl
    · unfold calculate_energy_for_row
      rw [if_neg (by simp [hE]), if_neg (by simp [hA])]
      rfl
    · rcases qs with _ | s
      · unfold calculate_energy_for_row
        rw [if_neg (by simp [hE]), if_neg (by simp [hA])]
        rfl
      · unfold calculate_energy_for_row
        rw [if_neg (by simp [hE]), if_neg (by simp [hA])]
        rfl

/-- Witness for C10: with the end bound missing the two-point frame's window
is passed through unchanged. -/
theorem C10_witness :
    calculate_energy_for_row dfTwoPoint "h" none (some 36600) =
      (match AnalysisEnergy.compute_energy_kwh_for_hostname dfTwoPoint
          (extractUnitFirst dfTwoPoint) "h" none (some 36600) with
       | some v => (v, some ((none : Option ℚ), some (36600:ℚ)))
       | none => (0, none)) :=
  (C10_window_passthrough dfTwoPoint "h" none (some 36600)).2 (by decide) (by decide)
    (Or.inl rfl)

/-- Counterexample to C10 as stated: on an empty result set with both bounds
supplied the integrator is never invoked (the recorded call window is
`none`), whereas the claim says the query window is passed to the integrator
unconditionally. -/
theorem C10_counterexample :
    (calculate_energy_for_row dfEmpty "h" (some 0) (some 1)).2 = none ∧
    (none : Option (Option ℚ × Option ℚ)) ≠ some (some 0, some 1) := by
  constructor
  · rfl
  · simp
